import Mathlib

/-!
# Verification of the booking_rooms reservation admission engine

Shallow embedding of the conflict-detection and admission logic of the
booking_rooms repository.  The authoritative in-repo code is the SQL schema
(tables `users`, `classrooms`, `bookings`, the `check_booking_conflicts`
function, the `prevent_booking_conflicts` trigger and the row-level-security
policies).  `DATE` values are modelled as `Nat` day numbers and `TIME` values
as `Nat` minutes-of-day; statuses are the literal strings stored in the
`status` column.
-/

/-- A row of the `bookings` table (columns relevant to the admission logic,
with `created_at`/`updated_at` bookkeeping omitted). -/
structure Booking where
  id : Nat
  classroom_id : Nat
  user_id : Nat
  booking_date : Nat
  start_time : Nat
  end_time : Nat
  subject : Option String := none
  description : Option String := none
  is_recurring : Bool := false
  recurring_pattern : Option String := none
  recurring_end_date : Option Nat := none
  status : String := "confirmed"
  deriving Repr, DecidableEq

/-- A row of the `classrooms` table (columns relevant to admission). -/
structure Classroom where
  id : Nat
  name : String := ""
  capacity : Nat := 0
  is_active : Bool := true
  deriving Repr, DecidableEq

/-- A row of the `users` table (columns relevant to the RLS policies). -/
structure UserRec where
  id : Nat
  username : String := ""
  is_admin : Bool := false
  deriving Repr, DecidableEq

/-- The four-clause overlap enumeration of `check_booking_conflicts`
(`src/unnamed/part_001`, lines 1094-1103), comparing an existing row's
`[start_time, end_time)` against the candidate `[p_start_time, p_end_time)`:
starts-during OR ends-during OR contains OR is-contained. -/
def fourClauseOverlap (start_time end_time p_start_time p_end_time : Nat) : Bool :=
  (start_time ≤ p_start_time && end_time > p_start_time) ||
  (start_time < p_end_time && end_time ≥ p_end_time) ||
  (start_time ≥ p_start_time && end_time ≤ p_end_time) ||
  (start_time ≤ p_start_time && end_time ≥ p_end_time)

/-- The SQL function `check_booking_conflicts(p_classroom_id, p_booking_date,
p_start_time, p_end_time, p_exclude_booking_id)`: true iff some row of
`bookings` has the same classroom, the same booking date, status `confirmed`,
an id different from the exclusion (when given), and a four-clause overlap
with the candidate interval. -/
def check_booking_conflicts (bookings : List Booking) (p_classroom_id : Nat)
    (p_booking_date : Nat) (p_start_time : Nat) (p_end_time : Nat)
    (p_exclude_booking_id : Option Nat) : Bool :=
  bookings.any fun b =>
    b.classroom_id == p_classroom_id &&
    b.booking_date == p_booking_date &&
    b.status == "confirmed" &&
    (match p_exclude_booking_id with
     | none => true
     | some ex => b.id != ex) &&
    fourClauseOverlap b.start_time b.end_time p_start_time p_end_time

/-- The trigger function `prevent_booking_conflicts`: on BEFORE INSERT OR
UPDATE it calls `check_booking_conflicts` on the NEW row's classroom, date and
times, excluding the NEW row's own id, and raises (returns `true` here) when a
conflict is found. -/
def prevent_booking_conflicts (bookings : List Booking) (new : Booking) : Bool :=
  check_booking_conflicts bookings new.classroom_id new.booking_date
    new.start_time new.end_time (some new.id)

/-- An INSERT on `bookings` guarded by the `prevent_booking_conflicts_trigger`:
the row is appended iff the trigger does not raise; `none` models the aborted
statement. -/
def insertBooking (bookings : List Booking) (new : Booking) : Option (List Booking) :=
  if prevent_booking_conflicts bookings new then none
  else some (bookings ++ [new])

/-- An UPDATE on `bookings` guarded by the trigger: the trigger check runs
against the current table (the old version of the row is excluded by id), and
on success the row with the NEW row's id is replaced. -/
def updateBookingRow (bookings : List Booking) (new : Booking) : Option (List Booking) :=
  if prevent_booking_conflicts bookings new then none
  else some (bookings.map fun b => if b.id == new.id then new else b)

/-- The spec's half-open overlap rule (§4.1): `[s1,e1)` and `[s2,e2)` overlap
iff `s1 < e2 AND s2 < e1`.  Stated from the spec's words, to be compared with
the four-clause enumeration of the source. -/
def halfOpenOverlap (s1 e1 s2 e2 : Nat) : Bool :=
  s1 < e2 && s2 < e1

/-- The confirmed-intervals invariant (spec §3): within one room, on one date,
any two distinct confirmed bookings have non-overlapping half-open intervals. -/
def ConfirmedNonOverlapping (bookings : List Booking) : Prop :=
  ∀ b1 ∈ bookings, ∀ b2 ∈ bookings,
    b1.id ≠ b2.id →
    b1.classroom_id = b2.classroom_id →
    b1.booking_date = b2.booking_date →
    b1.status = "confirmed" → b2.status = "confirmed" →
    halfOpenOverlap b1.start_time b1.end_time b2.start_time b2.end_time = false

instance (bookings : List Booking) : Decidable (ConfirmedNonOverlapping bookings) := by
  unfold ConfirmedNonOverlapping
  infer_instance


-- The full database state and the row-level-security gate.

/-- The persistent state: the three tables of the schema. -/
structure DB where
  users : List UserRec
  classrooms : List Classroom
  bookings : List Booking
  deriving Repr, DecidableEq

/-- The admin test of the RLS policies: `EXISTS (SELECT 1 FROM users WHERE
id = auth.uid() AND is_admin = TRUE)`. -/
def isAdminUser (users : List UserRec) (uid : Nat) : Bool :=
  users.any fun u => u.id == uid && u.is_admin

/-- The bookings RLS gate for UPDATE/DELETE: "Users can update/delete their
own bookings" (`auth.uid() = user_id`) OR-ed with the permissive policy
"Admins can manage all bookings". -/
def canModifyBooking (users : List UserRec) (uid : Nat) (b : Booking) : Bool :=
  uid == b.user_id || isAdminUser users uid

/-- Lookup of a booking row by primary key. -/
def findBooking (db : DB) (bid : Nat) : Option Booking :=
  db.bookings.find? fun b => b.id == bid

/-- Whether a classroom row with the given id exists and has
`is_active = TRUE`. -/
def activeRoom (db : DB) (roomId : Nat) : Bool :=
  db.classrooms.any fun c => c.id == roomId && c.is_active

/-- Next value of the `bookings.id` SERIAL sequence (one past the maximum). -/
def nextBookingId (db : DB) : Nat :=
  (db.bookings.foldl (fun m b => max m b.id) 0) + 1

/-- The error taxonomy of spec section 7. -/
inductive AdmissionError where
  | RoomInactive
  | InvalidInterval
  | Conflict
  | Forbidden
  | NotFound
  | RecurrenceTooLong
  deriving Repr, DecidableEq

/-- Modelled from the spec: the Admission Controller's `create` operation
(section 4.4) is not under src/ (the FastAPI backend is absent); per the spec
it validates that the room is active, validates the interval, runs the
conflict check, and only then persists with status `confirmed`.  Persistence
goes through the trigger-guarded insert of the source schema. -/
def createReservation (db : DB) (ownerId roomId date s e : Nat)
    (subj desc : Option String) : Except AdmissionError DB :=
  if !(activeRoom db roomId) then .error .RoomInactive
  else if e ≤ s then .error .InvalidInterval
  else if check_booking_conflicts db.bookings roomId date s e none then .error .Conflict
  else
    match insertBooking db.bookings
      { id := nextBookingId db, classroom_id := roomId, user_id := ownerId,
        booking_date := date, start_time := s, end_time := e,
        subject := subj, description := desc, status := "confirmed" } with
    | some bs => .ok { db with bookings := bs }
    | none => .error .Conflict

/-- A partial update of a booking, as sent to `PUT /bookings/id`. -/
structure BookingPatch where
  classroom_id : Option Nat := none
  booking_date : Option Nat := none
  start_time : Option Nat := none
  end_time : Option Nat := none
  subject : Option (Option String) := none
  description : Option (Option String) := none
  deriving Repr

/-- Candidate row reconstructed from patch plus existing values
(spec section 4.4). -/
def applyPatch (b : Booking) (p : BookingPatch) : Booking :=
  { b with
    classroom_id := p.classroom_id.getD b.classroom_id,
    booking_date := p.booking_date.getD b.booking_date,
    start_time := p.start_time.getD b.start_time,
    end_time := p.end_time.getD b.end_time,
    subject := p.subject.getD b.subject,
    description := p.description.getD b.description }

/-- Modelled from the spec: the Admission Controller's `update` operation
(section 4.4) is not under src/; per the spec it fails `NotFound` when the
reservation does not exist, `Forbidden` unless the requester passes the
ownership/role gate (taken from the source's RLS policies), re-validates the
reconstructed candidate as a fresh admission excluding the record's own id,
then persists through the trigger-guarded update of the source schema. -/
def updateReservation (db : DB) (requesterId bid : Nat) (p : BookingPatch) :
    Except AdmissionError DB :=
  match findBooking db bid with
  | none => .error .NotFound
  | some b =>
    if !(canModifyBooking db.users requesterId b) then .error .Forbidden
    else
      if (applyPatch b p).end_time ≤ (applyPatch b p).start_time then
        .error .InvalidInterval
      else if check_booking_conflicts db.bookings (applyPatch b p).classroom_id
          (applyPatch b p).booking_date (applyPatch b p).start_time
          (applyPatch b p).end_time (some bid) then .error .Conflict
      else
        match updateBookingRow db.bookings (applyPatch b p) with
        | some bs => .ok { db with bookings := bs }
        | none => .error .Conflict

/-- Modelled from the spec: the Admission Controller's `cancel` operation
(section 4.4) is not under src/; per the spec it fails `NotFound` or
`Forbidden` (gate from the source's RLS policies) and otherwise sets the
status to `cancelled` (idempotent). -/
def cancelReservation (db : DB) (requesterId bid : Nat) :
    Except AdmissionError DB :=
  match findBooking db bid with
  | none => .error .NotFound
  | some b =>
    if !(canModifyBooking db.users requesterId b) then .error .Forbidden
    else .ok { db with bookings := db.bookings.map fun x =>
        if x.id == bid then { x with status := "cancelled" } else x }

/-- Soft-deactivation of a room: an UPDATE of the `classrooms` row setting
`is_active = FALSE`; no other table is touched. -/
def deactivateRoom (db : DB) (roomId : Nat) : DB :=
  { db with classrooms := db.classrooms.map fun c =>
      if c.id == roomId then { c with is_active := false } else c }

-- Recurrence expansion and batch admission.

/-- Modelled from the spec: the Recurrence Expander (section 4.5) is not under
src/ (only the `is_recurring`/`recurring_pattern`/`recurring_end_date` columns
are); for the weekly pattern it yields the first occurrence plus repeats every
7 days up to and including the last occurrence on or before the recurrence end
date. -/
def weeklyOccurrences (startDate recurringEndDate : Nat) : List Nat :=
  (List.range ((recurringEndDate - startDate) / 7 + 1)).map fun k => startDate + 7 * k

/-- Occurrence cap of the Recurrence Expander (spec section 4.5). -/
def maxOccurrences : Nat := 52

/-- Errors of recurring-series creation; `conflictAt` names the offending
occurrence by index and date. -/
inductive RecurringError where
  | tooLong
  | roomInactive
  | invalidInterval
  | conflictAt (occurrenceIndex : Nat) (occurrenceDate : Nat)
  deriving Repr, DecidableEq

/-- Modelled from the spec: the batch admission loop of section 4.5 — each
candidate occurrence is checked against the store state including the
just-admitted earlier occurrences; the first conflicting occurrence aborts the
whole batch with its index and date. -/
def admitOccurrences (ownerId roomId s e : Nat) (pat : Option String)
    (red : Option Nat) : List Booking → Nat → Nat → List Nat →
    Except (Nat × Nat) (List Booking)
  | bs, _, _, [] => .ok bs
  | bs, nid, idx, d :: rest =>
    match insertBooking bs
      { id := nid, classroom_id := roomId, user_id := ownerId,
        booking_date := d, start_time := s, end_time := e,
        is_recurring := true, recurring_pattern := pat,
        recurring_end_date := red, status := "confirmed" } with
    | none => .error (idx, d)
    | some bs2 => admitOccurrences ownerId roomId s e pat red bs2 (nid + 1) (idx + 1) rest

/-- Modelled from the spec: all-or-nothing creation of a weekly recurring
series (section 4.5) — run inside one atomic admission step, so an error
leaves the store unchanged (second component of the result). -/
def createRecurring (db : DB) (ownerId roomId startDate s e recurringEndDate : Nat) :
    (Option RecurringError) × DB :=
  if !(activeRoom db roomId) then (some .roomInactive, db)
  else if e ≤ s then (some .invalidInterval, db)
  else
    if maxOccurrences < (weeklyOccurrences startDate recurringEndDate).length
    then (some .tooLong, db)
    else
      match admitOccurrences ownerId roomId s e (some "weekly")
          (some recurringEndDate) db.bookings (nextBookingId db) 0
          (weeklyOccurrences startDate recurringEndDate) with
      | .error (idx, d) => (some (.conflictAt idx d), db)
      | .ok bs => (none, { db with bookings := bs })

-- Concurrency model for the trigger under READ COMMITTED.

/-- One INSERT statement of a transaction under PostgreSQL's default READ
COMMITTED isolation: the trigger check reads only the rows committed when the
statement starts; `some r` means the statement succeeded inside its
transaction. -/
def runInsertStatement (committed : List Booking) (r : Booking) : Option Booking :=
  if prevent_booking_conflicts committed r then none else some r

/-- The interleaving of two concurrent INSERT transactions in which both
trigger checks execute before either transaction commits: neither statement
can see the other's uncommitted row, and whatever passed its check commits
(the schema declares no EXCLUDE or UNIQUE constraint on `bookings` that could
block the second COMMIT). -/
def scheduleBothCheckFirst (committed : List Booking) (r1 r2 : Booking) :
    List Booking :=
  match runInsertStatement committed r1, runInsertStatement committed r2 with
  | some a, some b => committed ++ [a, b]
  | some a, none => committed ++ [a]
  | none, some b => committed ++ [b]
  | none, none => committed

-- Basic relation between the four-clause test and the half-open rule.

/-- Whenever the half-open rule reports an overlap, so does the four-clause
enumeration (no validity assumption needed). -/
theorem halfOpen_imp_fourClause (s e ps pe : Nat)
    (h : halfOpenOverlap s e ps pe = true) :
    fourClauseOverlap s e ps pe = true := by
  simp only [halfOpenOverlap, fourClauseOverlap, Bool.and_eq_true, Bool.or_eq_true,
    decide_eq_true_eq] at *
  omega

/-- Contrapositive form: a row that passes the four-clause test clean does not
overlap in the half-open sense. -/
theorem fourClause_false_imp_halfOpen_false (s e ps pe : Nat)
    (h : fourClauseOverlap s e ps pe = false) :
    halfOpenOverlap s e ps pe = false := by
  cases hh : halfOpenOverlap s e ps pe with
  | false => rfl
  | true => rw [halfOpen_imp_fourClause s e ps pe hh] at h; cases h

/-- C2: for valid intervals (`s1 < e1`, `s2 < e2`) the four-clause enumeration
of `check_booking_conflicts` coincides with the single half-open inequality
pair `s1 < e2 AND s2 < e1`; hence back-to-back intervals are not conflicts and
containment is a conflict. -/
theorem fourClause_iff_halfOpen (s1 e1 s2 e2 : Nat)
    (h1 : s1 < e1) (h2 : s2 < e2) :
    fourClauseOverlap s1 e1 s2 e2 = halfOpenOverlap s1 e1 s2 e2 := by
  simp only [halfOpenOverlap, fourClauseOverlap, Bool.and_eq_true, Bool.or_eq_true,
    decide_eq_true_eq]
  cases hh : (decide (s1 < e2) && decide (s2 < e1)) with
  | true =>
    simp only [Bool.and_eq_true, decide_eq_true_eq] at hh
    simp only [Bool.or_eq_true, Bool.and_eq_true, decide_eq_true_eq]
    omega
  | false =>
    simp only [Bool.and_eq_false_iff, decide_eq_false_iff_not, Nat.not_lt] at hh
    simp only [Bool.or_eq_false_iff, Bool.and_eq_false_iff, decide_eq_false_iff_not,
      Nat.not_lt, Nat.not_le]
    omega

/-- Witness for C2: the spec's three examples, with times in minutes —
`[540,600)` vs `[600,660)` (back-to-back, no conflict), `[540,600)` vs
`[570,630)` (conflict), `[540,660)` vs `[570,630)` (containment, conflict). -/
theorem fourClause_iff_halfOpen_witness :
    (540 < 600 ∧ 600 < 660 ∧
      fourClauseOverlap 540 600 600 660 = halfOpenOverlap 540 600 600 660) ∧
    fourClauseOverlap 540 600 600 660 = false ∧
    fourClauseOverlap 540 600 570 630 = true ∧
    fourClauseOverlap 540 660 570 630 = true :=
  ⟨⟨by decide, by decide,
      fourClause_iff_halfOpen 540 600 600 660 (by decide) (by decide)⟩,
    by decide, by decide, by decide⟩

-- Elimination and introduction lemmas for the conflict check.

/-- A matching confirmed row that passes the four-clause test makes the
conflict check fire. -/
theorem check_true_intro {bookings : List Booking} {c d s e : Nat} {ex : Option Nat}
    {b : Booking} (hb : b ∈ bookings)
    (hc : b.classroom_id = c) (hd : b.booking_date = d) (hs : b.status = "confirmed")
    (hex : ∀ x, ex = some x → b.id ≠ x)
    (hfour : fourClauseOverlap b.start_time b.end_time s e = true) :
    check_booking_conflicts bookings c d s e ex = true := by
  unfold check_booking_conflicts
  rw [List.any_eq_true]
  refine ⟨b, hb, ?_⟩
  subst hc
  subst hd
  cases ex with
  | none => simp [hs, hfour]
  | some x =>
    have hne : b.id ≠ x := hex x rfl
    simp [hs, hfour, bne_iff_ne, hne]

/-- If the conflict check is clean, every matching confirmed row (other than
the excluded one) fails the four-clause test. -/
theorem check_false_elim {bookings : List Booking} {c d s e : Nat} {ex : Option Nat}
    (h : check_booking_conflicts bookings c d s e ex = false)
    {b : Booking} (hb : b ∈ bookings)
    (hc : b.classroom_id = c) (hd : b.booking_date = d) (hs : b.status = "confirmed")
    (hex : ∀ x, ex = some x → b.id ≠ x) :
    fourClauseOverlap b.start_time b.end_time s e = false := by
  cases hfour : fourClauseOverlap b.start_time b.end_time s e with
  | false => rfl
  | true =>
    exfalso
    have htrue := check_true_intro hb hc hd hs hex hfour
    rw [h] at htrue
    cases htrue

/-- The half-open overlap test is symmetric. -/
theorem halfOpenOverlap_comm (s1 e1 s2 e2 : Nat) :
    halfOpenOverlap s1 e1 s2 e2 = halfOpenOverlap s2 e2 s1 e1 := by
  simp only [halfOpenOverlap]
  exact Bool.and_comm _ _

/-- C1: the confirmed-non-overlap invariant is preserved by every committed
trigger-guarded insert and update, and any write that would introduce two
overlapping confirmed reservations on the same room and date is rejected
before it commits. -/
theorem confirmed_invariant_preserved (S : List Booking) (r : Booking)
    (hinv : ConfirmedNonOverlapping S) :
    (∀ S', insertBooking S r = some S' → ConfirmedNonOverlapping S') ∧
    (∀ S', updateBookingRow S r = some S' → ConfirmedNonOverlapping S') ∧
    (∀ b ∈ S, b.id ≠ r.id → b.classroom_id = r.classroom_id →
      b.booking_date = r.booking_date → b.status = "confirmed" →
      halfOpenOverlap b.start_time b.end_time r.start_time r.end_time = true →
      insertBooking S r = none ∧ updateBookingRow S r = none) := by
  refine ⟨?_, ?_, ?_⟩
  · -- insert preserves the invariant
    intro S' hS'
    unfold insertBooking at hS'
    by_cases hprev : prevent_booking_conflicts S r = true
    · simp [hprev] at hS'
    · rw [Bool.not_eq_true] at hprev
      simp only [hprev, Bool.false_eq_true, if_false, Option.some.injEq] at hS'
      rw [← hS']
      unfold prevent_booking_conflicts at hprev
      intro b1 hb1 b2 hb2 hid hc hd hs1 hs2
      rw [List.mem_append, List.mem_singleton] at hb1 hb2
      rcases hb1 with hb1 | hb1 <;> rcases hb2 with hb2 | hb2
      · exact hinv b1 hb1 b2 hb2 hid hc hd hs1 hs2
      · -- b2 is the new row r
        rw [hb2] at hid hc hd ⊢
        have h4 : fourClauseOverlap b1.start_time b1.end_time
            r.start_time r.end_time = false :=
          check_false_elim hprev hb1 hc hd hs1 (fun x hx => by
            injection hx with hx; omega)
        exact fourClause_false_imp_halfOpen_false _ _ _ _ h4
      · -- b1 is the new row r
        rw [hb1] at hid hc hd ⊢
        have h4 : fourClauseOverlap b2.start_time b2.end_time
            r.start_time r.end_time = false :=
          check_false_elim hprev hb2 hc.symm hd.symm hs2 (fun x hx => by
            injection hx with hx; omega)
        rw [halfOpenOverlap_comm]
        exact fourClause_false_imp_halfOpen_false _ _ _ _ h4
      · rw [hb1, hb2] at hid; exact absurd rfl hid
  · -- update preserves the invariant
    intro S' hS'
    unfold updateBookingRow at hS'
    by_cases hprev : prevent_booking_conflicts S r = true
    · simp [hprev] at hS'
    · rw [Bool.not_eq_true] at hprev
      simp only [hprev, Bool.false_eq_true, if_false, Option.some.injEq] at hS'
      rw [← hS']
      unfold prevent_booking_conflicts at hprev
      intro b1 hb1 b2 hb2 hid hc hd hs1 hs2
      rw [List.mem_map] at hb1 hb2
      obtain ⟨a1, ha1, hfa1⟩ := hb1
      obtain ⟨a2, ha2, hfa2⟩ := hb2
      by_cases h1 : a1.id = r.id <;> by_cases h2 : a2.id = r.id
      · -- both rows were replaced by r: the two ids coincide, contradiction
        simp only [h1, beq_self_eq_true, if_true] at hfa1
        simp only [h2, beq_self_eq_true, if_true] at hfa2
        rw [← hfa1, ← hfa2] at hid
        exact absurd rfl hid
      · -- b1 is the new row r, b2 = a2 untouched
        simp only [h1, beq_self_eq_true, if_true] at hfa1
        have hne2 : (a2.id == r.id) = false := beq_eq_false_iff_ne.mpr h2
        simp only [hne2, Bool.false_eq_true, if_false] at hfa2
        rw [← hfa1, ← hfa2] at hid hc hd ⊢
        rw [← hfa1] at hs1
        rw [← hfa2] at hs2
        have h4 : fourClauseOverlap a2.start_time a2.end_time
            r.start_time r.end_time = false :=
          check_false_elim hprev ha2 hc.symm hd.symm hs2 (fun x hx => by
            injection hx with hx; omega)
        rw [halfOpenOverlap_comm]
        exact fourClause_false_imp_halfOpen_false _ _ _ _ h4
      · -- b1 = a1 untouched, b2 is the new row r
        have hne1 : (a1.id == r.id) = false := beq_eq_false_iff_ne.mpr h1
        simp only [hne1, Bool.false_eq_true, if_false] at hfa1
        simp only [h2, beq_self_eq_true, if_true] at hfa2
        rw [← hfa1, ← hfa2] at hid hc hd ⊢
        rw [← hfa1] at hs1
        rw [← hfa2] at hs2
        have h4 : fourClauseOverlap a1.start_time a1.end_time
            r.start_time r.end_time = false :=
          check_false_elim hprev ha1 hc hd hs1 (fun x hx => by
            injection hx with hx; omega)
        exact fourClause_false_imp_halfOpen_false _ _ _ _ h4
      · -- both untouched
        have hne1 : (a1.id == r.id) = false := beq_eq_false_iff_ne.mpr h1
        have hne2 : (a2.id == r.id) = false := beq_eq_false_iff_ne.mpr h2
        simp only [hne1, Bool.false_eq_true, if_false] at hfa1
        simp only [hne2, Bool.false_eq_true, if_false] at hfa2
        rw [← hfa1, ← hfa2] at hid hc hd ⊢
        rw [← hfa1] at hs1
        rw [← hfa2] at hs2
        exact hinv a1 ha1 a2 ha2 hid hc hd hs1 hs2
  · -- an overlapping confirmed write is rejected
    intro b hb hbid hc hd hs hover
    have h4 : fourClauseOverlap b.start_time b.end_time r.start_time r.end_time = true :=
      halfOpen_imp_fourClause _ _ _ _ hover
    have hcheck : prevent_booking_conflicts S r = true :=
      check_true_intro hb hc hd hs (fun x hx => by injection hx with hx; omega) h4
    constructor
    · unfold insertBooking; simp [hcheck]
    · unfold updateBookingRow; simp [hcheck]

/-- Witness for C1: on a concrete one-row store the theorem applies; the
invariant holds and is preserved by a committed back-to-back insert. -/
theorem confirmed_invariant_preserved_witness :
    ConfirmedNonOverlapping
      [{ id := 1, classroom_id := 1, user_id := 1, booking_date := 10,
         start_time := 540, end_time := 600 }] ∧
    (∀ S', insertBooking
        [{ id := 1, classroom_id := 1, user_id := 1, booking_date := 10,
           start_time := 540, end_time := 600 }]
        { id := 2, classroom_id := 1, user_id := 2, booking_date := 10,
          start_time := 600, end_time := 660 } = some S' →
      ConfirmedNonOverlapping S') := by
  have h := confirmed_invariant_preserved
    [{ id := 1, classroom_id := 1, user_id := 1, booking_date := 10,
       start_time := 540, end_time := 600 }]
    { id := 2, classroom_id := 1, user_id := 2, booking_date := 10,
      start_time := 600, end_time := 660 }
    (by decide)
  exact ⟨by decide, h.1⟩

-- C4: the exclusion parameter.

/-- The exclusion parameter is exactly a restriction of the scan to the other
rows: checking with `excludeId = ex` equals checking the table without the
row(s) of id `ex`, with no exclusion. -/
theorem check_exclude_eq_filter (S : List Booking) (c d s e ex : Nat) :
    check_booking_conflicts S c d s e (some ex) =
      check_booking_conflicts (S.filter fun b => b.id != ex) c d s e none := by
  rw [Bool.eq_iff_iff]
  unfold check_booking_conflicts
  simp only [List.any_eq_true, List.mem_filter]
  constructor
  · rintro ⟨b, hb, hp⟩
    simp only [Bool.and_eq_true] at hp
    obtain ⟨⟨⟨⟨h1, h2⟩, h3⟩, h4⟩, h5⟩ := hp
    refine ⟨b, ⟨hb, h4⟩, ?_⟩
    simp only [Bool.and_eq_true]
    exact ⟨⟨⟨⟨h1, h2⟩, h3⟩, trivial⟩, h5⟩
  · rintro ⟨b, ⟨hb, hbex⟩, hp⟩
    simp only [Bool.and_eq_true] at hp
    obtain ⟨⟨⟨⟨h1, h2⟩, h3⟩, _⟩, h5⟩ := hp
    refine ⟨b, hb, ?_⟩
    simp only [Bool.and_eq_true]
    exact ⟨⟨⟨⟨h1, h2⟩, h3⟩, hbex⟩, h5⟩

/-- C4: the conflict check with `excludeId = r.id` considers all rows except
`r` itself; hence an update whose new interval overlaps only `r`'s own prior
interval passes the trigger check and commits. -/
theorem exclude_self_update (S : List Booking) (r : Booking)
    (honly : ∀ b ∈ S, b.classroom_id = r.classroom_id →
      b.booking_date = r.booking_date → b.status = "confirmed" →
      fourClauseOverlap b.start_time b.end_time r.start_time r.end_time = true →
      b.id = r.id) :
    (∀ c d s e ex, check_booking_conflicts S c d s e (some ex) =
      check_booking_conflicts (S.filter fun b => b.id != ex) c d s e none) ∧
    check_booking_conflicts S r.classroom_id r.booking_date r.start_time
      r.end_time (some r.id) = false ∧
    (updateBookingRow S r).isSome = true := by
  have hchk : check_booking_conflicts S r.classroom_id r.booking_date r.start_time
      r.end_time (some r.id) = false := by
    cases hcc : check_booking_conflicts S r.classroom_id r.booking_date r.start_time
        r.end_time (some r.id) with
    | false => rfl
    | true =>
      exfalso
      unfold check_booking_conflicts at hcc
      rw [List.any_eq_true] at hcc
      obtain ⟨b, hb, hp⟩ := hcc
      simp only [Bool.and_eq_true, beq_iff_eq, bne_iff_ne, ne_eq] at hp
      obtain ⟨⟨⟨⟨h1, h2⟩, h3⟩, h4⟩, h5⟩ := hp
      exact h4 (honly b hb h1 h2 h3 h5)
  refine ⟨fun c d s e ex => check_exclude_eq_filter S c d s e ex, hchk, ?_⟩
  unfold updateBookingRow prevent_booking_conflicts
  simp [hchk]

/-- Witness for C4: shrinking a reservation from `[540,600)` to `[540,570)`
overlaps only its own prior record and the update commits. -/
theorem exclude_self_update_witness :
    (updateBookingRow
      [{ id := 1, classroom_id := 1, user_id := 1, booking_date := 10,
         start_time := 540, end_time := 600 }]
      { id := 1, classroom_id := 1, user_id := 1, booking_date := 10,
        start_time := 540, end_time := 570 }).isSome = true :=
  (exclude_self_update
    [{ id := 1, classroom_id := 1, user_id := 1, booking_date := 10,
       start_time := 540, end_time := 600 }]
    { id := 1, classroom_id := 1, user_id := 1, booking_date := 10,
      start_time := 540, end_time := 570 }
    (by decide)).2.2

-- C5: only confirmed rows are obstacles.

/-- Rows whose status is not `confirmed` never influence the conflict check. -/
theorem check_ignores_non_confirmed (S : List Booking) (c d s e : Nat)
    (ex : Option Nat) :
    check_booking_conflicts S c d s e ex =
      check_booking_conflicts (S.filter fun b => b.status == "confirmed")
        c d s e ex := by
  rw [Bool.eq_iff_iff]
  unfold check_booking_conflicts
  simp only [List.any_eq_true, List.mem_filter]
  constructor
  · rintro ⟨b, hb, hp⟩
    have hst : (b.status == "confirmed") = true := by
      simp only [Bool.and_eq_true] at hp
      exact hp.1.1.2
    exact ⟨b, ⟨hb, hst⟩, hp⟩
  · rintro ⟨b, ⟨hb, _⟩, hp⟩
    exact ⟨b, hb, hp⟩

/-- C5: cancelled records never block an admission — from an invariant-holding
store of valid intervals, cancelling a confirmed reservation commits, and a
new reservation with the same room, date and interval is then admitted by the
trigger. -/
theorem cancelled_never_blocks (S : List Booking) (r new : Booking)
    (hr : r ∈ S) (hrs : r.status = "confirmed")
    (hinv : ConfirmedNonOverlapping S)
    (hvalid : ∀ b ∈ S, b.start_time < b.end_time)
    (hc : new.classroom_id = r.classroom_id)
    (hd : new.booking_date = r.booking_date)
    (hs : new.start_time = r.start_time)
    (he : new.end_time = r.end_time) :
    updateBookingRow S { r with status := "cancelled" } =
      some (S.map fun b =>
        if b.id == r.id then { r with status := "cancelled" } else b) ∧
    (insertBooking
        (S.map fun b =>
          if b.id == r.id then { r with status := "cancelled" } else b)
        new).isSome = true := by
  have hrv : r.start_time < r.end_time := hvalid r hr
  have hcancel : check_booking_conflicts S r.classroom_id r.booking_date
      r.start_time r.end_time (some r.id) = false := by
    cases hcc : check_booking_conflicts S r.classroom_id r.booking_date
        r.start_time r.end_time (some r.id) with
    | false => rfl
    | true =>
      exfalso
      unfold check_booking_conflicts at hcc
      rw [List.any_eq_true] at hcc
      obtain ⟨b, hb, hp⟩ := hcc
      simp only [Bool.and_eq_true, beq_iff_eq, bne_iff_ne, ne_eq] at hp
      obtain ⟨⟨⟨⟨h1, h2⟩, h3⟩, h4⟩, h5⟩ := hp
      rw [fourClause_iff_halfOpen _ _ _ _ (hvalid b hb) hrv] at h5
      have hno := hinv b hb r hr h4 h1 h2 h3 hrs
      rw [hno] at h5
      exact Bool.noConfusion h5
  constructor
  · unfold updateBookingRow prevent_booking_conflicts
    simp [hcancel]
  · have hnew : check_booking_conflicts
        (S.map fun b =>
          if b.id == r.id then { r with status := "cancelled" } else b)
        new.classroom_id new.booking_date new.start_time new.end_time
        (some new.id) = false := by
      cases hcc : check_booking_conflicts
          (S.map fun b =>
            if b.id == r.id then { r with status := "cancelled" } else b)
          new.classroom_id new.booking_date new.start_time new.end_time
          (some new.id) with
      | false => rfl
      | true =>
        exfalso
        unfold check_booking_conflicts at hcc
        rw [List.any_eq_true] at hcc
        obtain ⟨b', hb', hp⟩ := hcc
        simp only [Bool.and_eq_true, beq_iff_eq, bne_iff_ne, ne_eq] at hp
        obtain ⟨⟨⟨⟨h1, h2⟩, h3⟩, h4⟩, h5⟩ := hp
        rw [List.mem_map] at hb'
        obtain ⟨a, ha, hfa⟩ := hb'
        by_cases haid : a.id = r.id
        · simp only [haid, beq_self_eq_true, if_true] at hfa
          rw [← hfa] at h3
          simp at h3
        · have hne : (a.id == r.id) = false := beq_eq_false_iff_ne.mpr haid
          simp only [hne, Bool.false_eq_true, if_false] at hfa
          rw [← hfa] at h1 h2 h3 h5
          rw [hc] at h1
          rw [hd] at h2
          rw [hs, he] at h5
          rw [fourClause_iff_halfOpen _ _ _ _ (hvalid a ha) hrv] at h5
          have hno := hinv a ha r hr haid h1 h2 h3 hrs
          rw [hno] at h5
          exact Bool.noConfusion h5
    unfold insertBooking prevent_booking_conflicts
    rw [hnew]
    rfl

/-- Witness for C5: one confirmed booking `[540,600)`; cancelling it and
re-creating the same interval under a fresh id succeeds. -/
theorem cancelled_never_blocks_witness :
    updateBookingRow
      [{ id := 1, classroom_id := 1, user_id := 1, booking_date := 10,
         start_time := 540, end_time := 600 }]
      { ({ id := 1, classroom_id := 1, user_id := 1, booking_date := 10,
           start_time := 540, end_time := 600 } : Booking) with
        status := "cancelled" } =
      some ([{ id := 1, classroom_id := 1, user_id := 1, booking_date := 10,
               start_time := 540, end_time := 600 }].map fun b =>
        if b.id == 1 then
          { ({ id := 1, classroom_id := 1, user_id := 1, booking_date := 10,
               start_time := 540, end_time := 600 } : Booking) with
            status := "cancelled" }
        else b) ∧
    (insertBooking
        ([{ id := 1, classroom_id := 1, user_id := 1, booking_date := 10,
            start_time := 540, end_time := 600 }].map fun b =>
          if b.id == 1 then
            { ({ id := 1, classroom_id := 1, user_id := 1, booking_date := 10,
                 start_time := 540, end_time := 600 } : Booking) with
              status := "cancelled" }
          else b)
        { id := 2, classroom_id := 1, user_id := 2, booking_date := 10,
          start_time := 540, end_time := 600 }).isSome = true :=
  cancelled_never_blocks
    [{ id := 1, classroom_id := 1, user_id := 1, booking_date := 10,
       start_time := 540, end_time := 600 }]
    { id := 1, classroom_id := 1, user_id := 1, booking_date := 10,
      start_time := 540, end_time := 600 }
    { id := 2, classroom_id := 1, user_id := 2, booking_date := 10,
      start_time := 540, end_time := 600 }
    (by decide) rfl (by decide) (by decide) rfl rfl rfl rfl

-- C10: exact characterisation of the trigger's rejection.

/-- C10: a trigger-guarded insert is rejected iff some other row with the
same classroom, the same booking date and status `confirmed` passes the
four-clause overlap test against the new row's interval; the rejection is
independent of the new row's own status, rows on different dates are never
compared, and the update path rejects under exactly the same condition. -/
theorem trigger_reject_iff (S : List Booking) (new : Booking) :
    (insertBooking S new = none ↔ ∃ b ∈ S,
      b.classroom_id = new.classroom_id ∧ b.booking_date = new.booking_date ∧
      b.status = "confirmed" ∧ b.id ≠ new.id ∧
      fourClauseOverlap b.start_time b.end_time new.start_time new.end_time
        = true) ∧
    (∀ st, insertBooking S { new with status := st } = none ↔
      insertBooking S new = none) ∧
    (updateBookingRow S new = none ↔ insertBooking S new = none) := by
  have hkey : ∀ m : Booking, insertBooking S m = none ↔
      prevent_booking_conflicts S m = true := by
    intro m
    unfold insertBooking
    by_cases h : prevent_booking_conflicts S m = true
    · simp [h]
    · simp [h]
  have hkeyU : ∀ m : Booking, updateBookingRow S m = none ↔
      prevent_booking_conflicts S m = true := by
    intro m
    unfold updateBookingRow
    by_cases h : prevent_booking_conflicts S m = true
    · simp [h]
    · simp [h]
  refine ⟨?_, ?_, ?_⟩
  · rw [hkey]
    unfold prevent_booking_conflicts check_booking_conflicts
    rw [List.any_eq_true]
    constructor
    · rintro ⟨b, hb, hp⟩
      simp only [Bool.and_eq_true, beq_iff_eq, bne_iff_ne, ne_eq] at hp
      obtain ⟨⟨⟨⟨h1, h2⟩, h3⟩, h4⟩, h5⟩ := hp
      exact ⟨b, hb, h1, h2, h3, h4, h5⟩
    · rintro ⟨b, hb, h1, h2, h3, h4, h5⟩
      refine ⟨b, hb, ?_⟩
      simp only [Bool.and_eq_true, beq_iff_eq, bne_iff_ne, ne_eq]
      exact ⟨⟨⟨⟨h1, h2⟩, h3⟩, h4⟩, h5⟩
  · intro st
    rw [hkey, hkey]
    exact Iff.rfl
  · rw [hkeyU, hkey]

-- C3: concurrency of the check-then-act sequence.

/-- C3 fails on the code: in the interleaving where two concurrent
identical-interval INSERT transactions on the same room both run their trigger
checks before either commits (PostgreSQL READ COMMITTED, the default — the
schema sets no isolation level and declares no EXCLUDE or UNIQUE constraint on
`bookings`), both statements pass the check and both rows commit, violating
the confirmed-non-overlap invariant instead of exactly one succeeding. -/
theorem concurrent_inserts_both_commit :
    runInsertStatement []
        { id := 1, classroom_id := 1, user_id := 1, booking_date := 10,
          start_time := 540, end_time := 600 } =
      some { id := 1, classroom_id := 1, user_id := 1, booking_date := 10,
             start_time := 540, end_time := 600 } ∧
    runInsertStatement []
        { id := 2, classroom_id := 1, user_id := 2, booking_date := 10,
          start_time := 540, end_time := 600 } =
      some { id := 2, classroom_id := 1, user_id := 2, booking_date := 10,
             start_time := 540, end_time := 600 } ∧
    scheduleBothCheckFirst []
        { id := 1, classroom_id := 1, user_id := 1, booking_date := 10,
          start_time := 540, end_time := 600 }
        { id := 2, classroom_id := 1, user_id := 2, booking_date := 10,
          start_time := 540, end_time := 600 } =
      [{ id := 1, classroom_id := 1, user_id := 1, booking_date := 10,
         start_time := 540, end_time := 600 },
       { id := 2, classroom_id := 1, user_id := 2, booking_date := 10,
         start_time := 540, end_time := 600 }] ∧
    ¬ ConfirmedNonOverlapping
        [{ id := 1, classroom_id := 1, user_id := 1, booking_date := 10,
           start_time := 540, end_time := 600 },
         { id := 2, classroom_id := 1, user_id := 2, booking_date := 10,
           start_time := 540, end_time := 600 }] := by
  refine ⟨by decide, by decide, by decide, by decide⟩

-- C6: ownership and role gate.

/-- C6: the RLS gate on bookings holds exactly when the requester owns the
row or is an admin; a non-owner non-admin gets `Forbidden` from both update
and cancel, while an admin succeeds on another user's reservation (cancel
unconditionally, update whenever the reconstructed candidate passes
validation). -/
theorem ownership_gate (db : DB) (rq bid : Nat) (p : BookingPatch) (b : Booking)
    (hf : findBooking db bid = some b) :
    (canModifyBooking db.users rq b = true ↔
      (rq = b.user_id ∨ isAdminUser db.users rq = true)) ∧
    (rq ≠ b.user_id → isAdminUser db.users rq = false →
      updateReservation db rq bid p = .error .Forbidden ∧
      cancelReservation db rq bid = .error .Forbidden) ∧
    (isAdminUser db.users rq = true →
      (cancelReservation db rq bid).isOk = true ∧
      ((applyPatch b p).start_time < (applyPatch b p).end_time →
        check_booking_conflicts db.bookings (applyPatch b p).classroom_id
          (applyPatch b p).booking_date (applyPatch b p).start_time
          (applyPatch b p).end_time (some bid) = false →
        (updateReservation db rq bid p).isOk = true)) := by
  have hbid : b.id = bid := by
    unfold findBooking at hf
    have := List.find?_some hf
    simpa using this
  refine ⟨?_, ?_, ?_⟩
  · unfold canModifyBooking
    simp [Bool.or_eq_true, beq_iff_eq]
  · intro hown hadm
    have hgate : canModifyBooking db.users rq b = false := by
      unfold canModifyBooking
      rw [hadm, Bool.or_false, beq_eq_false_iff_ne]
      exact hown
    constructor
    · unfold updateReservation
      rw [hf]
      simp [hgate]
    · unfold cancelReservation
      rw [hf]
      simp [hgate]
  · intro hadm
    have hgate : canModifyBooking db.users rq b = true := by
      unfold canModifyBooking
      rw [hadm, Bool.or_true]
    constructor
    · unfold cancelReservation
      rw [hf]
      simp only [hgate, Bool.not_true, Bool.false_eq_true, if_false]
      rfl
    · intro hv hchk
      have hprev : prevent_booking_conflicts db.bookings (applyPatch b p)
          = false := by
        unfold prevent_booking_conflicts
        have hid : (applyPatch b p).id = bid := by
          unfold applyPatch
          simpa using hbid
        rw [hid]
        exact hchk
      unfold updateReservation
      rw [hf]
      have hnle : ¬((applyPatch b p).end_time ≤ (applyPatch b p).start_time) := by
        omega
      unfold updateBookingRow
      simp only [hgate, Bool.not_true, Bool.false_eq_true, if_false, hnle, hchk,
        hprev, if_true]
      rfl

/-- Witness for C6: user 1 is an admin, user 2 owns booking 5, user 3 is a
plain member; member 3 gets `Forbidden` on both operations and admin 1
succeeds on both (the update shrinks the interval). -/
theorem ownership_gate_witness :
    (updateReservation
        { users := [{ id := 1, is_admin := true }, { id := 2 }, { id := 3 }],
          classrooms := [{ id := 1 }],
          bookings := [{ id := 5, classroom_id := 1, user_id := 2,
                           booking_date := 10, start_time := 540,
                           end_time := 600 }] }
        3 5 { end_time := some 570 } = .error .Forbidden ∧
      cancelReservation
        { users := [{ id := 1, is_admin := true }, { id := 2 }, { id := 3 }],
          classrooms := [{ id := 1 }],
          bookings := [{ id := 5, classroom_id := 1, user_id := 2,
                           booking_date := 10, start_time := 540,
                           end_time := 600 }] }
        3 5 = .error .Forbidden) ∧
    (cancelReservation
        { users := [{ id := 1, is_admin := true }, { id := 2 }, { id := 3 }],
          classrooms := [{ id := 1 }],
          bookings := [{ id := 5, classroom_id := 1, user_id := 2,
                           booking_date := 10, start_time := 540,
                           end_time := 600 }] }
        1 5).isOk = true ∧
    (updateReservation
        { users := [{ id := 1, is_admin := true }, { id := 2 }, { id := 3 }],
          classrooms := [{ id := 1 }],
          bookings := [{ id := 5, classroom_id := 1, user_id := 2,
                           booking_date := 10, start_time := 540,
                           end_time := 600 }] }
        1 5 { end_time := some 570 }).isOk = true := by
  refine ⟨?_, ?_, ?_⟩
  · exact (ownership_gate
      { users := [{ id := 1, is_admin := true }, { id := 2 }, { id := 3 }],
        classrooms := [{ id := 1 }],
        bookings := [{ id := 5, classroom_id := 1, user_id := 2,
                       booking_date := 10, start_time := 540,
                       end_time := 600 }] }
      3 5 { end_time := some 570 }
      { id := 5, classroom_id := 1, user_id := 2, booking_date := 10,
        start_time := 540, end_time := 600 }
      rfl).2.1 (by decide) (by decide)
  · exact ((ownership_gate
      { users := [{ id := 1, is_admin := true }, { id := 2 }, { id := 3 }],
        classrooms := [{ id := 1 }],
        bookings := [{ id := 5, classroom_id := 1, user_id := 2,
                       booking_date := 10, start_time := 540,
                       end_time := 600 }] }
      1 5 { end_time := some 570 }
      { id := 5, classroom_id := 1, user_id := 2, booking_date := 10,
        start_time := 540, end_time := 600 }
      rfl).2.2 (by decide)).1
  · exact ((ownership_gate
      { users := [{ id := 1, is_admin := true }, { id := 2 }, { id := 3 }],
        classrooms := [{ id := 1 }],
        bookings := [{ id := 5, classroom_id := 1, user_id := 2,
                       booking_date := 10, start_time := 540,
                       end_time := 600 }] }
      1 5 { end_time := some 570 }
      { id := 5, classroom_id := 1, user_id := 2, booking_date := 10,
        start_time := 540, end_time := 600 }
      rfl).2.2 (by decide)).2 (by decide) (by decide)

-- C8: room deactivation.

/-- C8: deactivating a room is a pure soft-deactivation — the bookings and
users tables are untouched (no reservation is cancelled or deleted), and its
only admission effect is that a new create against that room fails with
`RoomInactive`. -/
theorem deactivate_frame (db : DB) (roomId : Nat) :
    (deactivateRoom db roomId).bookings = db.bookings ∧
    (deactivateRoom db roomId).users = db.users ∧
    activeRoom (deactivateRoom db roomId) roomId = false ∧
    (∀ ownerId date s e subj desc,
      createReservation (deactivateRoom db roomId) ownerId roomId date s e
        subj desc = .error .RoomInactive) := by
  have hact : activeRoom (deactivateRoom db roomId) roomId = false := by
    unfold activeRoom deactivateRoom
    rw [List.any_eq_false]
    intro c' hc'
    rw [List.mem_map] at hc'
    obtain ⟨c, hc, hfc⟩ := hc'
    by_cases hid : c.id = roomId
    · simp only [hid, beq_self_eq_true, if_true] at hfc
      rw [← hfc]
      simp
    · have hne : (c.id == roomId) = false := beq_eq_false_iff_ne.mpr hid
      simp only [hne, Bool.false_eq_true, if_false] at hfc
      rw [← hfc]
      simp [hne]
  refine ⟨rfl, rfl, hact, ?_⟩
  intro ownerId date s e subj desc
  unfold createReservation
  rw [hact]
  rfl

-- C7: interval validity.

/-- C7: with an active room, a create with `end ≤ start` fails with
`InvalidInterval`; an update whose reconstructed candidate has `end ≤ start`
fails with `InvalidInterval`; and when every stored interval satisfies
`start < end`, every successful create, update or cancel leaves all stored
intervals satisfying `start < end`. -/
theorem interval_validity (db : DB) (ownerId roomId date s e : Nat)
    (subj desc : Option String) (rq bid : Nat) (p : BookingPatch)
    (hvalid : ∀ b ∈ db.bookings, b.start_time < b.end_time) :
    (activeRoom db roomId = true → e ≤ s →
      createReservation db ownerId roomId date s e subj desc =
        .error .InvalidInterval) ∧
    (∀ b, findBooking db bid = some b → canModifyBooking db.users rq b = true →
      (applyPatch b p).end_time ≤ (applyPatch b p).start_time →
      updateReservation db rq bid p = .error .InvalidInterval) ∧
    (∀ db', createReservation db ownerId roomId date s e subj desc = .ok db' →
      ∀ b ∈ db'.bookings, b.start_time < b.end_time) ∧
    (∀ db', updateReservation db rq bid p = .ok db' →
      ∀ b ∈ db'.bookings, b.start_time < b.end_time) ∧
    (∀ db', cancelReservation db rq bid = .ok db' →
      ∀ b ∈ db'.bookings, b.start_time < b.end_time) := by
  refine ⟨?_, ?_, ?_, ?_, ?_⟩
  · intro hact hle
    unfold createReservation
    rw [hact]
    simp [hle]
  · intro b hfb hgate hle
    unfold updateReservation
    rw [hfb]
    simp [hgate, hle]
  · intro db' h
    unfold createReservation at h
    split at h
    · exact Except.noConfusion h
    · split at h
      · exact Except.noConfusion h
      · rename_i hnle
        split at h
        · exact Except.noConfusion h
        · split at h
          · rename_i bs heq
            injection h with h
            unfold insertBooking at heq
            split at heq
            · exact Option.noConfusion heq
            · injection heq with heq
              rw [← h]
              intro b hb
              simp only [] at hb
              rw [← heq] at hb
              rw [List.mem_append, List.mem_singleton] at hb
              rcases hb with hb | hb
              · exact hvalid b hb
              · rw [hb]
                simp only []
                omega
          · exact Except.noConfusion h
  · intro db' h
    unfold updateReservation at h
    split at h
    · exact Except.noConfusion h
    · rename_i b hfb
      split at h
      · exact Except.noConfusion h
      · split at h
        · exact Except.noConfusion h
        · rename_i hnle
          split at h
          · exact Except.noConfusion h
          · split at h
            · rename_i bs heq
              injection h with h
              unfold updateBookingRow at heq
              split at heq
              · exact Option.noConfusion heq
              · injection heq with heq
                rw [← h]
                intro x hx
                simp only [] at hx
                rw [← heq] at hx
                rw [List.mem_map] at hx
                obtain ⟨a, ha, hfa⟩ := hx
                by_cases haid : a.id = (applyPatch b p).id
                · have : (a.id == (applyPatch b p).id) = true :=
                    beq_iff_eq.mpr haid
                  simp only [this, if_true] at hfa
                  rw [← hfa]
                  omega
                · have : (a.id == (applyPatch b p).id) = false :=
                    beq_eq_false_iff_ne.mpr haid
                  simp only [this, Bool.false_eq_true, if_false] at hfa
                  rw [← hfa]
                  exact hvalid a ha
            · exact Except.noConfusion h
  · intro db' h
    unfold cancelReservation at h
    split at h
    · exact Except.noConfusion h
    · split at h
      · exact Except.noConfusion h
      · injection h with h
        rw [← h]
        intro x hx
        simp only [] at hx
        rw [List.mem_map] at hx
        obtain ⟨a, ha, hfa⟩ := hx
        by_cases haid : a.id = bid
        · have : (a.id == bid) = true := beq_iff_eq.mpr haid
          simp only [this, if_true] at hfa
          rw [← hfa]
          simp only []
          exact hvalid a ha
        · have : (a.id == bid) = false := beq_eq_false_iff_ne.mpr haid
          simp only [this, Bool.false_eq_true, if_false] at hfa
          rw [← hfa]
          exact hvalid a ha

/-- Witness for C7: on a one-row valid store, creating with `end = start`
fails with `InvalidInterval` and a successful back-to-back create keeps all
intervals valid. -/
theorem interval_validity_witness :
    createReservation
        { users := [{ id := 1 }], classrooms := [{ id := 1 }],
          bookings := [{ id := 1, classroom_id := 1, user_id := 1,
                         booking_date := 10, start_time := 540,
                         end_time := 600 }] }
        1 1 10 600 600 none none = .error .InvalidInterval ∧
    (∀ db', createReservation
        { users := [{ id := 1 }], classrooms := [{ id := 1 }],
          bookings := [{ id := 1, classroom_id := 1, user_id := 1,
                         booking_date := 10, start_time := 540,
                         end_time := 600 }] }
        1 1 10 600 600 none none = .ok db' →
      ∀ b ∈ db'.bookings, b.start_time < b.end_time) := by
  constructor
  · exact (interval_validity
      { users := [{ id := 1 }], classrooms := [{ id := 1 }],
        bookings := [{ id := 1, classroom_id := 1, user_id := 1,
                       booking_date := 10, start_time := 540,
                       end_time := 600 }] }
      1 1 10 600 600 none none 1 1 {} (by decide)).1 (by decide) (by decide)
  · exact (interval_validity
      { users := [{ id := 1 }], classrooms := [{ id := 1 }],
        bookings := [{ id := 1, classroom_id := 1, user_id := 1,
                       booking_date := 10, start_time := 540,
                       end_time := 600 }] }
      1 1 10 600 600 none none 1 1 {} (by decide)).2.2.1

-- C9: recurring series admission.

/-- A successful batch admission appends exactly one reservation per
occurrence date, in order. -/
theorem admitOccurrences_ok (ownerId roomId s e : Nat) (pat : Option String)
    (red : Option Nat) (dates : List Nat) :
    ∀ bs nid idx bs',
      admitOccurrences ownerId roomId s e pat red bs nid idx dates = .ok bs' →
      ∃ rows, bs' = bs ++ rows ∧ rows.length = dates.length ∧
        rows.map Booking.booking_date = dates := by
  induction dates with
  | nil =>
    intro bs nid idx bs' h
    unfold admitOccurrences at h
    injection h with h
    exact ⟨[], by rw [← h]; simp, rfl, rfl⟩
  | cons d rest ih =>
    intro bs nid idx bs' h
    unfold admitOccurrences at h
    split at h
    · exact Except.noConfusion h
    · rename_i bs2 heq
      obtain ⟨rows, hrows, hlen, hdates⟩ := ih bs2 (nid + 1) (idx + 1) bs' h
      unfold insertBooking at heq
      split at heq
      · exact Option.noConfusion heq
      · injection heq with heq
        refine ⟨({ id := nid, classroom_id := roomId, user_id := ownerId,
                   booking_date := d, start_time := s, end_time := e,
                   is_recurring := true, recurring_pattern := pat,
                   recurring_end_date := red,
                   status := "confirmed" } : Booking) :: rows, ?_, ?_, ?_⟩
        · rw [hrows, ← heq]
          simp
        · simp [hlen]
        · simp [hdates]

/-- C9: creating a weekly recurring series is all-or-nothing — any error
leaves the store exactly as it was, a success persists exactly one
reservation per expanded occurrence; and on the spec's 3-week scenario with
week 2 already occupied, zero reservations are created and the error names
week 2's occurrence (index 1, its date). -/
theorem recurring_all_or_nothing (db : DB)
    (ownerId roomId startDate s e recurringEndDate : Nat) :
    (∀ err db2, createRecurring db ownerId roomId startDate s e
        recurringEndDate = (some err, db2) → db2 = db) ∧
    (∀ db2, createRecurring db ownerId roomId startDate s e
        recurringEndDate = (none, db2) →
      ∃ rows, db2.bookings = db.bookings ++ rows ∧
        rows.length = (weeklyOccurrences startDate recurringEndDate).length ∧
        rows.map Booking.booking_date
          = weeklyOccurrences startDate recurringEndDate) ∧
    createRecurring
        { users := [{ id := 2 }], classrooms := [{ id := 1 }],
          bookings := [{ id := 1, classroom_id := 1, user_id := 3,
                         booking_date := 107, start_time := 540,
                         end_time := 600 }] }
        2 1 100 540 600 114 =
      (some (.conflictAt 1 107),
        { users := [{ id := 2 }], classrooms := [{ id := 1 }],
          bookings := [{ id := 1, classroom_id := 1, user_id := 3,
                         booking_date := 107, start_time := 540,
                         end_time := 600 }] }) := by
  refine ⟨?_, ?_, by decide⟩
  · intro err db2 h
    unfold createRecurring at h
    split at h
    · injection h with h1 h2
      exact h2.symm
    · split at h
      · injection h with h1 h2
        exact h2.symm
      · split at h
        · injection h with h1 h2
          exact h2.symm
        · split at h
          · injection h with h1 h2
            exact h2.symm
          · injection h with h1 h2
            exact Option.noConfusion h1
  · intro db2 h
    unfold createRecurring at h
    split at h
    · injection h with h1 h2
      exact Option.noConfusion h1
    · split at h
      · injection h with h1 h2
        exact Option.noConfusion h1
      · split at h
        · injection h with h1 h2
          exact Option.noConfusion h1
        · split at h
          · injection h with h1 h2
            exact Option.noConfusion h1
          · rename_i bs heq
            injection h with h1 h2
            obtain ⟨rows, hrows, hlen, hdates⟩ :=
              admitOccurrences_ok ownerId roomId s e (some "weekly")
                (some recurringEndDate) (weeklyOccurrences startDate
                  recurringEndDate) db.bookings (nextBookingId db) 0 bs heq
            refine ⟨rows, ?_, hlen, hdates⟩
            rw [← h2]
            exact hrows
